import Mathlib

/-!
Verification of the 3DM-API control-plane protocol stack.

Shallow embedding of the repository's wire protocol (`src/common/protocol.py`),
exceptions (`src/common/exceptions.py`), command dispatchers
(`src/blender/addon/handlers.py`, `src/freecad/server/handlers.py`), socket
servers (`src/blender/addon/server.py`, `src/freecad/server/server.py`) and the
async socket client / connection pool (`api/clients/base_client.py`).

JSON values decoded by `json.loads` / handed to `json.dumps` are modelled by
the inductive type `JVal`.  Python `dict`s are modelled as association lists
that preserve insertion order and key uniqueness on update, matching CPython
dict semantics.  Python `None` coincides with JSON `null` (`JVal.null`).
-/

/-- A JSON value, as produced by Python's `json.loads`.  Numbers are modelled
as integers (no claim under study depends on fractional numbers). -/
inductive JVal where
  | null : JVal
  | bool : Bool → JVal
  | num : Int → JVal
  | str : String → JVal
  | arr : List JVal → JVal
  | obj : List (String × JVal) → JVal
deriving Repr

mutual

/-- Structural (decidable) equality on `JVal`. -/
def JVal.beq : JVal → JVal → Bool
  | .null, .null => true
  | .bool a, .bool b => a == b
  | .num a, .num b => a == b
  | .str a, .str b => a == b
  | .arr a, .arr b => JVal.beqList a b
  | .obj a, .obj b => JVal.beqFields a b
  | _, _ => false

def JVal.beqList : List JVal → List JVal → Bool
  | [], [] => true
  | a :: as, b :: bs => JVal.beq a b && JVal.beqList as bs
  | _, _ => false

def JVal.beqFields : List (String × JVal) → List (String × JVal) → Bool
  | [], [] => true
  | (ka, va) :: as, (kb, vb) :: bs => ka == kb && JVal.beq va vb && JVal.beqFields as bs
  | _, _ => false

end

mutual

theorem JVal.beq_iff : ∀ a b : JVal, JVal.beq a b = true ↔ a = b
  | .null, .null => by simp [JVal.beq]
  | .null, .bool _ | .null, .num _ | .null, .str _ | .null, .arr _ | .null, .obj _ => by
      simp [JVal.beq]
  | .bool _, .null | .bool _, .num _ | .bool _, .str _ | .bool _, .arr _ | .bool _, .obj _ => by
      simp [JVal.beq]
  | .bool a, .bool b => by simp [JVal.beq]
  | .num _, .null | .num _, .bool _ | .num _, .str _ | .num _, .arr _ | .num _, .obj _ => by
      simp [JVal.beq]
  | .num a, .num b => by simp [JVal.beq]
  | .str _, .null | .str _, .bool _ | .str _, .num _ | .str _, .arr _ | .str _, .obj _ => by
      simp [JVal.beq]
  | .str a, .str b => by simp [JVal.beq]
  | .arr _, .null | .arr _, .bool _ | .arr _, .num _ | .arr _, .str _ | .arr _, .obj _ => by
      simp [JVal.beq]
  | .arr a, .arr b => by
      simp only [JVal.beq, JVal.arr.injEq]
      exact JVal.beqList_iff a b
  | .obj _, .null | .obj _, .bool _ | .obj _, .num _ | .obj _, .str _ | .obj _, .arr _ => by
      simp [JVal.beq]
  | .obj a, .obj b => by
      simp only [JVal.beq, JVal.obj.injEq]
      exact JVal.beqFields_iff a b

theorem JVal.beqList_iff : ∀ a b : List JVal, JVal.beqList a b = true ↔ a = b
  | [], [] => by simp [JVal.beqList]
  | [], _ :: _ => by simp [JVal.beqList]
  | _ :: _, [] => by simp [JVal.beqList]
  | a :: as, b :: bs => by
      simp only [JVal.beqList, Bool.and_eq_true, List.cons.injEq]
      exact and_congr (JVal.beq_iff a b) (JVal.beqList_iff as bs)

theorem JVal.beqFields_iff :
    ∀ a b : List (String × JVal), JVal.beqFields a b = true ↔ a = b
  | [], [] => by simp [JVal.beqFields]
  | [], _ :: _ => by simp [JVal.beqFields]
  | _ :: _, [] => by simp [JVal.beqFields]
  | (ka, va) :: as, (kb, vb) :: bs => by
      simp only [JVal.beqFields, Bool.and_eq_true, List.cons.injEq, Prod.mk.injEq, beq_iff_eq]
      exact and_congr (and_congr Iff.rfl (JVal.beq_iff va vb)) (JVal.beqFields_iff as bs)

end

instance : DecidableEq JVal := fun a b =>
  decidable_of_iff (JVal.beq a b = true) (JVal.beq_iff a b)

/-- Python `dict.get(k)` on a JSON object's field list: the value of the first
(and, for dicts, unique) binding of `k`, if any. -/
def assocGet (fields : List (String × JVal)) (k : String) : Option JVal :=
  match fields with
  | [] => none
  | (k', v) :: rest => if k' = k then some v else assocGet rest k

/-- Python `dict.get(k, d)`: field lookup with a default. -/
def assocGetD (fields : List (String × JVal)) (k : String) (d : JVal) : JVal :=
  (assocGet fields k).getD d

/-! ## Wire protocol (`src/common/protocol.py`)

Each dataclass's `to_json` builds a Python dict and hands it to `json.dumps`,
appending `"\n"`; `from_json` applies `json.loads` and extracts fields with
`dict.get`.  We embed the dict construction and field extraction over `JVal`;
`json.dumps`/`json.loads` (the standard library) are the identity embedding of
that dict into/out of the wire line.  Fields hold the raw decoded values, as
the Python dataclasses do at runtime; a Python field equal to `None` is
`JVal.null` (`id` absent on the wire and `id=None` are indistinguishable in
Python, and likewise here). -/

/-- `protocol.Request`: `method`, `params`, `id`, holding raw decoded JSON
values (`id = JVal.null` models Python `id=None`). -/
structure Request where
  method : JVal
  params : JVal
  id : JVal
deriving DecidableEq, Repr

/-- `Request.to_json`, up to `json.dumps`: the dict
`{"method": ..., "params": ...}` with `"id"` added iff `self.id is not None`. -/
def Request.to_json (r : Request) : JVal :=
  .obj ([("method", r.method), ("params", r.params)] ++
    (if r.id = .null then [] else [("id", r.id)]))

/-- `Request.from_json`, after `json.loads`: `data.get("method", "")`,
`data.get("params", {})`, `data.get("id")`.  On a non-object (Python: a value
with no `.get`) the source raises `AttributeError`, modelled as `.error`. -/
def Request.from_json (j : JVal) : Except String Request :=
  match j with
  | .obj fields =>
      .ok ⟨assocGetD fields "method" (.str ""), assocGetD fields "params" (.obj []),
        assocGetD fields "id" .null⟩
  | _ => .error "AttributeError"

/-- `protocol.Response` (the success envelope): `result`, `id`, `status`. -/
structure Response where
  result : JVal
  id : JVal
  status : JVal
deriving DecidableEq, Repr

/-- Constructor default `status="success"` of the `Response` dataclass. -/
def Response.make (result : JVal) (id : JVal) : Response :=
  ⟨result, id, .str "success"⟩

/-- `Response.to_json`, up to `json.dumps`. -/
def Response.to_json (r : Response) : JVal :=
  .obj ([("status", r.status), ("result", r.result)] ++
    (if r.id = .null then [] else [("id", r.id)]))

/-- `Response.from_json`, after `json.loads`. -/
def Response.from_json (j : JVal) : Except String Response :=
  match j with
  | .obj fields =>
      .ok ⟨assocGetD fields "result" .null, assocGetD fields "id" .null,
        assocGetD fields "status" (.str "success")⟩
  | _ => .error "AttributeError"

/-- `protocol.ErrorResponse`: `code`, `message`, `details`, `id`, `status`. -/
structure ErrorResponse where
  code : JVal
  message : JVal
  details : JVal
  id : JVal
  status : JVal
deriving DecidableEq, Repr

/-- `ErrorResponse` built with the dataclass defaults
(`details={}`, `id=None`, `status="error"`) overridden as at each call site. -/
def ErrorResponse.make (code message : String) (details : List (String × JVal))
    (id : JVal) : ErrorResponse :=
  ⟨.str code, .str message, .obj details, id, .str "error"⟩

/-- `ErrorResponse.to_json`, up to `json.dumps`: nests `code`, `message`,
`details` under the `"error"` key. -/
def ErrorResponse.to_json (e : ErrorResponse) : JVal :=
  .obj ([("status", e.status),
    ("error", .obj [("code", e.code), ("message", e.message), ("details", e.details)])] ++
    (if e.id = .null then [] else [("id", e.id)]))

/-- `ErrorResponse.from_json`, after `json.loads`: `error = data.get("error", {})`
then `error.get(...)`; a non-object `error` value raises in Python
(`AttributeError`), modelled as `.error`. -/
def ErrorResponse.from_json (j : JVal) : Except String ErrorResponse :=
  match j with
  | .obj fields =>
      match assocGetD fields "error" (.obj []) with
      | .obj err =>
          .ok ⟨assocGetD err "code" (.str "UNKNOWN"),
            assocGetD err "message" (.str "Unknown error"),
            assocGetD err "details" (.obj []),
            assocGetD fields "id" .null,
            assocGetD fields "status" (.str "error")⟩
      | _ => .error "AttributeError"
  | _ => .error "AttributeError"

theorem request_roundtrip (r : Request) : Request.from_json r.to_json = .ok r := by
  obtain ⟨m, p, i⟩ := r
  by_cases h : i = JVal.null <;>
    simp [Request.to_json, Request.from_json, assocGetD, assocGet, h]

theorem response_roundtrip (s : Response) : Response.from_json s.to_json = .ok s := by
  obtain ⟨res, i, st⟩ := s
  by_cases h : i = JVal.null <;>
    simp [Response.to_json, Response.from_json, assocGetD, assocGet, h]

theorem error_response_roundtrip (e : ErrorResponse) :
    ErrorResponse.from_json e.to_json = .ok e := by
  obtain ⟨c, m, d, i, st⟩ := e
  by_cases h : i = JVal.null <;>
    simp [ErrorResponse.to_json, ErrorResponse.from_json, assocGetD, assocGet, h]

/-- C7: serializing a `Request`, `Response` (Result), or `ErrorResponse`
envelope with `to_json` and parsing the line back with `from_json` yields an
envelope equal field-for-field to the original, for every representable `id`
value including `None` (`id = None` serializes by omitting the key and parses
back to `None`). -/
theorem roundtrip_all_envelopes :
    (∀ r : Request, Request.from_json r.to_json = .ok r) ∧
    (∀ s : Response, Response.from_json s.to_json = .ok s) ∧
    (∀ e : ErrorResponse, ErrorResponse.from_json e.to_json = .ok e) :=
  ⟨request_roundtrip, response_roundtrip, error_response_roundtrip⟩

/-! ## Exceptions (`src/common/exceptions.py`)

`TDMAPIError` carries `message`, `code`, `details`; subclasses fix the code
and format the message.  A raised Python exception crossing the dispatcher /
server boundary is either such a typed error or an arbitrary untyped one. -/

/-- `exceptions.TDMAPIError`: `message`, `code`, `details` as set by
`__init__`. -/
structure TDMAPIError where
  message : String
  code : String
  details : List (String × JVal)
deriving DecidableEq, Repr

/-- `TDMAPIError.to_dict`. -/
def TDMAPIError.to_dict (e : TDMAPIError) : JVal :=
  .obj [("code", .str e.code), ("message", .str e.message), ("details", .obj e.details)]

/-- `exceptions.MethodNotFoundError(method)`: code `METHOD_NOT_FOUND`,
message `"Method not found: <method>"`, details `{"method": method}`. -/
def MethodNotFoundError (method : String) : TDMAPIError :=
  ⟨"Method not found: " ++ method, "METHOD_NOT_FOUND", [("method", .str method)]⟩

/-- `exceptions.TimeoutError(message)`: code `TIMEOUT_ERROR`.  Defined in the
repository but raised nowhere in it. -/
def TimeoutErrorExc (message : String) : TDMAPIError :=
  ⟨message, "TIMEOUT_ERROR", []⟩

/-- An exception escaping a capability handler: a typed `TDMAPIError` or an
arbitrary untyped exception (kept as its `str(e)` text). -/
inductive PyExc where
  | typed : TDMAPIError → PyExc
  | untyped : String → PyExc
deriving Repr

/-- A capability handler: named JSON parameters in, JSON value out, or a
raised exception (`Except.error`). -/
def Handler : Type := List (String × JVal) → Except PyExc JVal

/-- Python dict lookup `d.get(k)`, generic in the value type. -/
def dictGet {α : Type} (l : List (String × α)) (k : String) : Option α :=
  match l with
  | [] => none
  | (k', v) :: rest => if k' = k then some v else dictGet rest k

/-- Python dict assignment `d[k] = v`: overwrite in place if the key exists
(keeping its position, as CPython dicts do), else append. -/
def dictSet {α : Type} (l : List (String × α)) (k : String) (v : α) :
    List (String × α) :=
  match l with
  | [] => [(k, v)]
  | (k', v') :: rest => if k' = k then (k, v) :: rest else (k', v') :: dictSet rest k v

/-- Python `del d[k]` (guarded by `if k in d` at the call site): remove the
binding of `k`, keeping the order of the others. -/
def dictDel {α : Type} (l : List (String × α)) (k : String) : List (String × α) :=
  match l with
  | [] => []
  | (k', v') :: rest => if k' = k then rest else (k', v') :: dictDel rest k

/-! ## Blender command dispatcher (`src/blender/addon/handlers.py`) -/

namespace Blender

/-- `handlers.CommandDispatcher`: the `_handlers` dict (the `threading.Lock`
around each registry access makes every registry operation atomic; the
atomic operations themselves are embedded here). -/
structure CommandDispatcher where
  handlers : List (String × Handler)

/-- `CommandDispatcher.register`. -/
def CommandDispatcher.register (d : CommandDispatcher) (method : String)
    (handler : Handler) : CommandDispatcher :=
  ⟨dictSet d.handlers method handler⟩

/-- `CommandDispatcher.unregister`. -/
def CommandDispatcher.unregister (d : CommandDispatcher) (method : String) :
    CommandDispatcher :=
  ⟨dictDel d.handlers method⟩

/-- `CommandDispatcher.list_methods`: `list(self._handlers.keys())` — the
registered names in registration order (CPython dicts preserve insertion
order). -/
def CommandDispatcher.list_methods (d : CommandDispatcher) : List String :=
  d.handlers.map Prod.fst

/-- `CommandDispatcher.dispatch` in the execution contexts where
`_execute_threadsafe` runs the handler inline (headless mode, or the calling
thread already being the engine/main thread): look up the handler, raise
`MethodNotFoundError` when absent, else `handler(**params)`.  The cross-thread
GUI path of `_execute_threadsafe` is modelled operationally below. -/
def CommandDispatcher.dispatch (d : CommandDispatcher) (method : String)
    (params : List (String × JVal)) : Except PyExc JVal :=
  match dictGet d.handlers method with
  | none => .error (.typed (MethodNotFoundError method))
  | some h => h params

end Blender

/-! ## FreeCAD command dispatcher (`src/freecad/server/handlers.py`) -/

/-- Python string comparison (as used by `sorted`) on the underlying
character lists: code-point lexicographic. -/
def charsLe : List Char → List Char → Bool
  | [], _ => true
  | _ :: _, [] => false
  | a :: as, b :: bs => if a < b then true else if b < a then false else charsLe as bs

/-- Python `s1 <= s2` on strings. -/
def pyStrLe (a b : String) : Bool := charsLe a.toList b.toList

theorem charsLe_total : ∀ a b : List Char, (charsLe a b || charsLe b a) = true
  | [], [] => rfl
  | [], _ :: _ => rfl
  | _ :: _, [] => rfl
  | a :: as, b :: bs => by
      simp only [charsLe]
      rcases lt_trichotomy a b with h | h | h
      · simp [h]
      · subst h
        simpa [lt_irrefl] using charsLe_total as bs
      · simp [h, lt_asymm h]

theorem charsLe_trans : ∀ a b c : List Char,
    charsLe a b = true → charsLe b c = true → charsLe a c = true
  | [], _, _ => by intro _ _; rfl
  | _ :: _, [], _ => by intro h _; simp [charsLe] at h
  | _ :: _, _ :: _, [] => by intro _ h; simp [charsLe] at h
  | a :: as, b :: bs, c :: cs => by
      intro hab hbc
      simp only [charsLe] at hab hbc ⊢
      rcases lt_trichotomy a b with h1 | h1 | h1
      · rcases lt_trichotomy b c with h2 | h2 | h2
        · simp [lt_trans h1 h2]
        · subst h2; simp [h1]
        · simp [h2, lt_asymm h2] at hbc
      · subst h1
        simp only [lt_irrefl, if_neg, ite_false, not_false_iff] at hab
        rcases lt_trichotomy a c with h2 | h2 | h2
        · simp [h2]
        · subst h2
          have hbc' : charsLe bs cs = true := by
            simpa [lt_irrefl] using hbc
          simpa [lt_irrefl] using charsLe_trans as bs cs hab hbc'
        · simp [h2, lt_asymm h2] at hbc
      · simp [h1, lt_asymm h1] at hab

namespace FreeCAD

/-- `freecad.server.handlers.CommandDispatcher`: the `handlers` dict. -/
structure CommandDispatcher where
  handlers : List (String × Handler)

/-- `CommandDispatcher.register`. -/
def CommandDispatcher.register (d : CommandDispatcher) (method : String)
    (handler_func : Handler) : CommandDispatcher :=
  ⟨dictSet d.handlers method handler_func⟩

/-- `CommandDispatcher.dispatch`: look up, raise `MethodNotFoundError` when
absent, else `handler_func(**params)` (always inline — the FreeCAD server has
no engine-context bridging). -/
def CommandDispatcher.dispatch (d : CommandDispatcher) (method : String)
    (params : List (String × JVal)) : Except PyExc JVal :=
  match dictGet d.handlers method with
  | none => .error (.typed (MethodNotFoundError method))
  | some h => h params

/-- `CommandDispatcher.list_methods`: `sorted(self.handlers.keys())`. -/
def CommandDispatcher.list_methods (d : CommandDispatcher) : List String :=
  (d.handlers.map Prod.fst).mergeSort pyStrLe

end FreeCAD

theorem pyStrLe_trans (a b c : String) (h1 : pyStrLe a b = true)
    (h2 : pyStrLe b c = true) : pyStrLe a c = true :=
  charsLe_trans a.toList b.toList c.toList h1 h2

theorem pyStrLe_total (a b : String) : (pyStrLe a b || pyStrLe b a) = true :=
  charsLe_total a.toList b.toList

/-- The `ping` built-in handler of `src/blender/addon/handlers.py`. -/
def pingHandler : Handler := fun _ =>
  .ok (.obj [("status", .str "pong"), ("message", .str "3DM-API Server is running")])

/-- The Blender dispatcher after its first two source-order registrations
(`@handler("ping")` then `@handler("get_version")`). -/
def blenderPingVersionDispatcher : Blender.CommandDispatcher :=
  (Blender.CommandDispatcher.mk []).register "ping" pingHandler
    |>.register "get_version" (fun _ => .ok (.obj [("api_version", .str "1.0.0")]))

/-- C4 counterexample: the Blender `CommandDispatcher.list_methods` returns
`list(self._handlers.keys())` in registration order, which is not sorted
already for the source's own first two registrations (`ping`,
`get_version`). -/
theorem blender_list_methods_not_sorted :
    blenderPingVersionDispatcher.list_methods = ["ping", "get_version"] ∧
    ¬ blenderPingVersionDispatcher.list_methods.Pairwise (fun a b => pyStrLe a b = true) := by
  constructor
  · rfl
  · decide

/-- C4 amended: the FreeCAD dispatcher's `list_methods` returns the registered
names in sorted order (a sorted permutation of the registry's keys); the
Blender dispatcher's `list_methods` returns them in registration order,
unsorted. -/
theorem list_methods_sorted_freecad_registration_order_blender :
    (∀ d : FreeCAD.CommandDispatcher,
      d.list_methods.Pairwise (fun a b => pyStrLe a b = true) ∧
      d.list_methods.Perm (d.handlers.map Prod.fst)) ∧
    (∀ d : Blender.CommandDispatcher, d.list_methods = d.handlers.map Prod.fst) := by
  refine ⟨fun d => ⟨?_, ?_⟩, fun _ => rfl⟩
  · exact List.sorted_mergeSort pyStrLe_trans pyStrLe_total (d.handlers.map Prod.fst)
  · exact List.mergeSort_perm (d.handlers.map Prod.fst) pyStrLe

/-- C6: if a handler is registered for `m`, `dispatch(m, p)` returns the
handler's value unmodified; if none is registered, it raises
`MethodNotFoundError` with message `"Method not found: <m>"` and details
`{"method": m}`; and a request line that omits `method` parses with the empty
method name (which, unregistered, takes the same `METHOD_NOT_FOUND` path). -/
theorem dispatch_behavior :
    (∀ (d : Blender.CommandDispatcher) (m : String) (p : List (String × JVal))
      (h : Handler) (v : JVal), dictGet d.handlers m = some h → h p = .ok v →
        d.dispatch m p = .ok v) ∧
    (∀ (d : Blender.CommandDispatcher) (m : String) (p : List (String × JVal)),
      dictGet d.handlers m = none →
        d.dispatch m p = .error (.typed ⟨"Method not found: " ++ m, "METHOD_NOT_FOUND",
          [("method", .str m)]⟩)) ∧
    (∀ fields : List (String × JVal), assocGet fields "method" = none →
      Request.from_json (.obj fields) =
        .ok ⟨.str "", assocGetD fields "params" (.obj []), assocGetD fields "id" .null⟩) := by
  refine ⟨fun d m p h v hreg hval => ?_, fun d m p hnone => ?_, fun fields hnone => ?_⟩
  · simp [Blender.CommandDispatcher.dispatch, hreg, hval]
  · simp [Blender.CommandDispatcher.dispatch, hnone, MethodNotFoundError]
  · simp [Request.from_json, assocGetD, hnone]

/-- Witness for C6 at concrete inputs: the source's `ping` handler is
returned unmodified, and an unregistered name takes the
`METHOD_NOT_FOUND` path. -/
theorem dispatch_behavior_witness :
    blenderPingVersionDispatcher.dispatch "ping" [] =
      .ok (.obj [("status", .str "pong"), ("message", .str "3DM-API Server is running")]) ∧
    blenderPingVersionDispatcher.dispatch "missing_method" [] =
      .error (.typed ⟨"Method not found: missing_method", "METHOD_NOT_FOUND",
        [("method", .str "missing_method")]⟩) ∧
    Request.from_json (.obj [("params", .obj []), ("id", .str "2")]) =
      .ok ⟨.str "", .obj [], .str "2"⟩ :=
  ⟨dispatch_behavior.1 blenderPingVersionDispatcher "ping" [] pingHandler _ rfl rfl,
   dispatch_behavior.2.1 blenderPingVersionDispatcher "missing_method" [] rfl,
   dispatch_behavior.2.2 [("params", .obj []), ("id", .str "2")] rfl⟩

/-! ## Cross-thread execution (`_execute_threadsafe` / `_process_command_queue`)

Operational model of the GUI-mode bridging in
`src/blender/addon/handlers.py`.  A connection-handler thread (never the
engine/main thread in this system — dispatch is called from per-connection
server threads) either executes the handler inline (headless mode,
`bpy.app.background`) or, in GUI mode, enqueues a Pending Cross-Thread Command
`(handler, params, result_event, result_container)` on `_command_queue` and
blocks in `result_event.wait(timeout=30.0)`.  The engine context's
`bpy.app.timers` tick drains the queue with `get_nowait` and runs the handler
on the engine thread.  Time is abstracted: `wait` returning is a
nondeterministic step, covering both a set event and the expired 30 s
timeout. -/

/-- A Pending Cross-Thread Command: handler, params, the completion `Event`
and the two slots of `result_container` (both initially `None`). -/
structure PendingCmd where
  handler : Handler
  params : List (String × JVal)
  eventSet : Bool
  result : Option JVal
  error : Option PyExc

/-- What one connection-handler thread is doing inside
`_execute_threadsafe`. -/
inductive CallerPhase where
  | ready : Handler → List (String × JVal) → CallerPhase
  | runningInline : Handler → List (String × JVal) → CallerPhase
  | waiting : Nat → CallerPhase
  | finished : Except PyExc JVal → CallerPhase

/-- Whether a thread is currently executing a capability handler on host
state itself (the headless inline path). -/
def CallerPhase.isInline : CallerPhase → Bool
  | .runningInline _ _ => true
  | _ => false

/-- The engine context: between ticks, or executing one dequeued command. -/
inductive EngineState where
  | idle
  | running : Nat → EngineState

/-- `bpy.app.background`: headless (`-b`) vs GUI mode. -/
inductive Mode where
  | headless
  | gui

/-- Whole-system state: the connection-handler threads, every
`result_container` created so far (indexed by creation order),
`_command_queue` (indices into `cmds`), and the engine context. -/
structure SysState where
  callers : List CallerPhase
  cmds : List PendingCmd
  queue : List Nat
  engine : EngineState

/-- `_process_command_queue` body for one dequeued command:
`result_container['result'] = handler(**params)` or
`result_container['error'] = e`, then (`finally`) `result_event.set()`. -/
def execCmd (c : PendingCmd) : PendingCmd :=
  match c.handler c.params with
  | .ok v => { c with eventSet := true, result := some v }
  | .error e => { c with eventSet := true, error := some e }

/-- The value `_execute_threadsafe` produces once `result_event.wait`
returns (whether signaled or timed out): raise `result_container['error']`
if set, else return `result_container['result']` — which is still `None`
(`JVal.null`) when the wait timed out with no completion. -/
def waitOutcome (c : PendingCmd) : Except PyExc JVal :=
  match c.error with
  | some e => .error e
  | none => .ok (c.result.getD .null)

/-- One interleaving step of the system, in the given mode.  GUI-mode
connection threads only enqueue and wait; the engine tick dequeues
(`get_nowait`) and executes.  Headless-mode threads execute inline on
themselves.  `wake` has no premise on `eventSet`: it covers both normal
completion and the 30-second timeout expiring. -/
inductive Step : Mode → SysState → SysState → Prop where
  | enqueue (i : Nat) (h : Handler) (p : List (String × JVal)) (s : SysState)
      (hc : s.callers.get? i = some (.ready h p)) :
      Step .gui s { s with callers := s.callers.set i (.waiting s.cmds.length),
                           cmds := s.cmds ++ [⟨h, p, false, none, none⟩],
                           queue := s.queue ++ [s.cmds.length] }
  | wake (i c : Nat) (cmd : PendingCmd) (s : SysState)
      (hc : s.callers.get? i = some (.waiting c))
      (hcmd : s.cmds.get? c = some cmd) :
      Step .gui s { s with callers := s.callers.set i (.finished (waitOutcome cmd)) }
  | tickStart (c : Nat) (rest : List Nat) (s : SysState)
      (hq : s.queue = c :: rest) (he : s.engine = .idle) :
      Step .gui s { s with queue := rest, engine := .running c }
  | tickFinish (c : Nat) (cmd : PendingCmd) (s : SysState)
      (he : s.engine = .running c) (hcmd : s.cmds.get? c = some cmd) :
      Step .gui s { s with cmds := s.cmds.set c (execCmd cmd), engine := .idle }
  | inlineStart (i : Nat) (h : Handler) (p : List (String × JVal)) (s : SysState)
      (hc : s.callers.get? i = some (.ready h p)) :
      Step .headless s { s with callers := s.callers.set i (.runningInline h p) }
  | inlineFinish (i : Nat) (h : Handler) (p : List (String × JVal)) (s : SysState)
      (hc : s.callers.get? i = some (.runningInline h p)) :
      Step .headless s { s with callers := s.callers.set i (.finished (h p)) }

/-- Reachability in GUI mode under any interleaving. -/
def ReachableGui : SysState → SysState → Prop :=
  Relation.ReflTransGen (Step .gui)

/-- How many capability-handler executions are in progress: inline callers
plus the engine context when it is mid-command. -/
def executingCount (s : SysState) : Nat :=
  s.callers.countP CallerPhase.isInline +
    (match s.engine with | .idle => 0 | .running _ => 1)

/-- In GUI mode, a step never puts any connection thread into inline handler
execution: GUI-mode callers only enqueue and wait, and handlers run only in
the engine tick. -/
theorem step_gui_no_inline {s t : SysState} (hstep : Step .gui s t)
    (hs : ∀ ph ∈ s.callers, ph.isInline = false) :
    ∀ ph ∈ t.callers, ph.isInline = false := by
  cases hstep with
  | enqueue i h p s hc =>
      intro ph hmem
      rcases List.mem_or_eq_of_mem_set hmem with h' | h'
      · exact hs ph h'
      · subst h'; rfl
  | wake i c cmd s hc hcmd =>
      intro ph hmem
      rcases List.mem_or_eq_of_mem_set hmem with h' | h'
      · exact hs ph h'
      · subst h'; rfl
  | tickStart c rest s hq he => exact hs
  | tickFinish c cmd s he hcmd => exact hs

/-- C2: under every interleaving of dispatch calls from any number of
connection-handler threads in GUI mode, no thread ever executes a handler
inline, and at most one capability handler execution on host state is in
progress at any time (the engine context's tick being the only executor). -/
theorem gui_single_writer (init s : SysState)
    (hinit : ∀ ph ∈ init.callers, ph.isInline = false)
    (hreach : ReachableGui init s) :
    (∀ ph ∈ s.callers, ph.isInline = false) ∧ executingCount s ≤ 1 := by
  have hinv : ∀ ph ∈ s.callers, ph.isInline = false := by
    induction hreach with
    | refl => exact hinit
    | tail h1 h2 ih => exact step_gui_no_inline h2 ih
  refine ⟨hinv, ?_⟩
  have hz : s.callers.countP CallerPhase.isInline = 0 :=
    List.countP_eq_zero.mpr (fun ph hmem => by simp [hinv ph hmem])
  unfold executingCount
  rw [hz]
  cases s.engine <;> simp

/-- A freshly created Pending Cross-Thread Command for `ping` with no
arguments: event unset, both `result_container` slots `None`. -/
def pingCmd : PendingCmd := ⟨pingHandler, [], false, none, none⟩

/-- GUI-mode start state with two connection threads about to dispatch
`ping`. -/
def guiTwoInit : SysState :=
  ⟨[.ready pingHandler [], .ready pingHandler []], [], [], .idle⟩

/-- `guiTwoInit` after thread 0 has enqueued its command. -/
def guiTwoMid : SysState :=
  ⟨[.waiting 0, .ready pingHandler []], [pingCmd], [0], .idle⟩

/-- `guiTwoMid` after thread 0's `result_event.wait` timed out with the
engine never having ticked. -/
def guiTwoFinal : SysState :=
  ⟨[.finished (.ok .null), .ready pingHandler []], [pingCmd], [0], .idle⟩

/-- Witness for C2: a concrete GUI-mode interleaving of two dispatching
connection threads; nothing executes inline and at most one execution is in
progress. -/
theorem gui_single_writer_witness :
    (∀ ph ∈ guiTwoFinal.callers, ph.isInline = false) ∧
    executingCount guiTwoFinal ≤ 1 :=
  gui_single_writer guiTwoInit guiTwoFinal
    (by
      intro ph hmem
      simp only [guiTwoInit, List.mem_cons, List.not_mem_nil, or_false] at hmem
      rcases hmem with rfl | rfl <;> rfl)
    (Relation.ReflTransGen.head
      (Step.enqueue 0 pingHandler [] guiTwoInit rfl)
      (Relation.ReflTransGen.single (Step.wake 0 0 pingCmd guiTwoMid rfl rfl)))

/-- GUI-mode start state with one connection thread about to dispatch
`ping`. -/
def guiOneInit : SysState := ⟨[.ready pingHandler []], [], [], .idle⟩

/-- `guiOneInit` after the thread enqueued its command. -/
def guiOneMid : SysState := ⟨[.waiting 0], [pingCmd], [0], .idle⟩

/-- `guiOneMid` after the thread's 30-second `result_event.wait` expired with
the engine context never having ticked. -/
def guiOneFinal : SysState := ⟨[.finished (.ok .null)], [pingCmd], [0], .idle⟩

/-- C1 (failing behavior): in GUI mode, when the engine context never
completes the queued command within the bounded wait, the dispatching thread
does not raise anything — `result_event.wait`'s return value is ignored and
the untouched `result_container['result']` (`None`) is returned silently.
The trace below reaches a state where the caller has returned `.ok null`
while its command's completion event was never set; no `TimeoutError`
(code `TIMEOUT_ERROR`) is raised. -/
theorem dispatch_timeout_returns_none :
    ReachableGui guiOneInit guiOneFinal ∧
    guiOneFinal.callers = [.finished (.ok .null)] ∧
    (∀ c ∈ guiOneFinal.cmds, c.eventSet = false) ∧
    (∀ e : PyExc, CallerPhase.finished (.error e) ∉ guiOneFinal.callers) := by
  refine ⟨?_, rfl, ?_, ?_⟩
  · exact Relation.ReflTransGen.head
      (Step.enqueue 0 pingHandler [] guiOneInit rfl)
      (Relation.ReflTransGen.single (Step.wake 0 0 pingCmd guiOneMid rfl rfl))
  · intro c hmem
    simp only [guiOneFinal, List.mem_cons, List.not_mem_nil, or_false] at hmem
    subst hmem
    rfl
  · intro e hmem
    simp [guiOneFinal] at hmem

/-! ## Socket client (`api/clients/base_client.py`)

`BaseSocketClient.send_command` loops `for attempt in range(retry_attempts)`.
Each attempt either fails at the connection level (connect failure, read
timeout, reset, or empty read — all caught by
`except (ConnectionError, asyncio.TimeoutError, OSError)`), yields a response
line that fails `json.loads` (`except json.JSONDecodeError`), or yields a
parsed response.  The I/O nondeterminism of the attempts is an explicit
script, one entry per attempt; the asyncio awaits and the per-client
`asyncio.Lock` serialize the whole call, so the loop is sequential. -/

/-- A connection-level failure of one attempt, as distinguished by
`send_command`'s `except` arm, with the text `str(e)` would yield. -/
inductive AttemptFailure where
  | connectFail : AttemptFailure
  | readTimeout : AttemptFailure
  | osError : String → AttemptFailure
  | emptyRead : AttemptFailure
deriving DecidableEq, Repr

/-- What one attempt of the retry loop runs into. -/
inductive AttemptOutcome where
  | fail : AttemptFailure → AttemptOutcome
  | badJson : String → AttemptOutcome
  | response : JVal → AttemptOutcome
deriving DecidableEq, Repr

/-- `str(e)` of the exception each failure raises: the client's own
`ConnectionError(f"Cannot connect to {self.host}:{self.port}")` for a connect
failure, the empty text of `asyncio.TimeoutError()`, the OS error text, and
`ConnectionError("Connection closed by server")` for an empty read. -/
def failureMsg (host : String) (port : Nat) : AttemptFailure → String
  | .connectFail => "Cannot connect to " ++ host ++ ":" ++ toString port
  | .readTimeout => ""
  | .osError m => m
  | .emptyRead => "Connection closed by server"

/-- The synthetic envelope `send_command` returns when the last attempt
fails at the connection level: `{"status": "error", "error": {"code":
"CONNECTION_ERROR", "message": str(e)}}` — note: no `details` key. -/
def connErrEnvelope (host : String) (port : Nat) (f : AttemptFailure) : JVal :=
  .obj [("status", .str "error"),
    ("error", .obj [("code", .str "CONNECTION_ERROR"),
      ("message", .str (failureMsg host port f))])]

/-- The envelope returned when a response line fails `json.loads`:
`{"status": "error", "error": {"code": "PARSE_ERROR", "message": ...}}`
(returned immediately, not retried). -/
def parseErrEnvelope (emsg : String) : JVal :=
  .obj [("status", .str "error"),
    ("error", .obj [("code", .str "PARSE_ERROR"),
      ("message", .str ("Invalid JSON response: " ++ emsg))])]

/-- `api.clients.base_client.BaseSocketClient` configuration (fields used by
the retry logic). -/
structure BaseSocketClient where
  host : String
  port : Nat
  retry_attempts : Nat

/-- The body of `send_command`'s retry loop over the remaining attempts (one
script entry per attempt; the list length is `retry_attempts`).  On a
connection-level failure the client disconnects, and retries if an attempt
remains (`attempt < retry_attempts - 1`), else returns the synthetic
`CONNECTION_ERROR` envelope.  With zero attempts the `for` body never runs
and the Python function falls through, returning `None`. -/
def sendAttempts (host : String) (port : Nat) : List AttemptOutcome → Option JVal
  | [] => none
  | o :: rest =>
    match o with
    | .response j => some j
    | .badJson emsg => some (parseErrEnvelope emsg)
    | .fail f =>
      match rest with
      | [] => some (connErrEnvelope host port f)
      | _ :: _ => sendAttempts host port rest

/-- `BaseSocketClient.send_command`, over an attempt script of length
`retry_attempts`. -/
def BaseSocketClient.send_command (c : BaseSocketClient)
    (outcomes : List AttemptOutcome) : Option JVal :=
  sendAttempts c.host c.port outcomes

/-- The `error.code` field of a returned envelope. -/
def envErrorCode (env : JVal) : Option JVal :=
  match env with
  | .obj fields =>
      match assocGet fields "error" with
      | some (.obj e) => assocGet e "code"
      | _ => none
  | _ => none

/-- The `error.details` field of a returned envelope. -/
def envErrorDetails (env : JVal) : Option JVal :=
  match env with
  | .obj fields =>
      match assocGet fields "error" with
      | some (.obj e) => assocGet e "details"
      | _ => none
  | _ => none

/-- C3 counterexample: a client configured with host `127.0.0.1`, port 9876,
`retry_attempts = 3` whose three attempts all fail to connect returns the
`CONNECTION_ERROR` envelope, but that envelope's error map has no `details`
key at all (host and port appear only inside the message text), refuting ``its
details map contains both the configured host and the configured port''. -/
theorem send_command_no_details_counterexample :
    BaseSocketClient.send_command ⟨"127.0.0.1", 9876, 3⟩
        [.fail .connectFail, .fail .connectFail, .fail .connectFail] =
      some (connErrEnvelope "127.0.0.1" 9876 .connectFail) ∧
    envErrorCode (connErrEnvelope "127.0.0.1" 9876 .connectFail) =
      some (.str "CONNECTION_ERROR") ∧
    envErrorDetails (connErrEnvelope "127.0.0.1" 9876 .connectFail) = none := by
  refine ⟨rfl, rfl, rfl⟩

theorem sendAttempts_all_fail (host : String) (port : Nat) :
    ∀ (outcomes : List AttemptOutcome) (f : AttemptFailure),
      outcomes.getLast? = some (.fail f) →
      (∀ o ∈ outcomes, ∃ g, o = .fail g) →
      sendAttempts host port outcomes = some (connErrEnvelope host port f)
  | [], f => by intro h _; simp at h
  | o :: rest, f => by
      intro hlast hall
      obtain ⟨g, rfl⟩ := hall o (List.mem_cons_self o rest)
      match rest with
      | [] =>
          simp only [List.getLast?_singleton, Option.some.injEq, AttemptOutcome.fail.injEq] at hlast
          subst hlast
          rfl
      | r :: rs =>
          rw [List.getLast?_cons_cons] at hlast
          have ih := sendAttempts_all_fail host port (r :: rs) f hlast
            (fun o ho => hall o (List.mem_cons_of_mem _ ho))
          simpa [sendAttempts] using ih

/-- C3 amended: when every one of the (at least one) attempts fails at the
connection level, `send_command` returns — rather than raises — the synthetic
envelope with code `CONNECTION_ERROR` and message `str(e)` of the last
failure; the envelope carries no `details` map at all (the configured host
and port appear only in the message text, and only when the last failure was
a connect failure). -/
theorem send_command_all_fail_connection_error (c : BaseSocketClient)
    (outcomes : List AttemptOutcome) (f : AttemptFailure)
    (hlast : outcomes.getLast? = some (.fail f))
    (hall : ∀ o ∈ outcomes, ∃ g, o = .fail g) :
    c.send_command outcomes = some (connErrEnvelope c.host c.port f) ∧
    envErrorCode (connErrEnvelope c.host c.port f) = some (.str "CONNECTION_ERROR") ∧
    envErrorDetails (connErrEnvelope c.host c.port f) = none := by
  refine ⟨sendAttempts_all_fail c.host c.port outcomes f hlast hall, ?_, ?_⟩
  · simp [connErrEnvelope, envErrorCode, assocGet]
  · simp [connErrEnvelope, envErrorDetails, assocGet]

/-- Witness for the amended C3: two attempts, a read timeout then an empty
read; the call returns the `CONNECTION_ERROR` envelope for the final failure,
with no details. -/
theorem send_command_all_fail_witness :
    BaseSocketClient.send_command ⟨"localhost", 9877, 2⟩
        [.fail .readTimeout, .fail .emptyRead] =
      some (connErrEnvelope "localhost" 9877 .emptyRead) ∧
    envErrorCode (connErrEnvelope "localhost" 9877 .emptyRead) =
      some (.str "CONNECTION_ERROR") ∧
    envErrorDetails (connErrEnvelope "localhost" 9877 .emptyRead) = none :=
  send_command_all_fail_connection_error ⟨"localhost", 9877, 2⟩
    [.fail .readTimeout, .fail .emptyRead] .emptyRead rfl
    (by
      intro o hmem
      simp only [List.mem_cons, List.not_mem_nil, or_false] at hmem
      rcases hmem with rfl | rfl
      · exact ⟨.readTimeout, rfl⟩
      · exact ⟨.emptyRead, rfl⟩)

/-! ## Connection pool (`api/clients/base_client.py`, `ConnectionPool`)

The idle pool is `asyncio.Queue(maxsize=size)`.  asyncio's queue treats
`maxsize <= 0` as unbounded: `full()` is then never true and `put_nowait`
never raises `QueueFull`.  `release` puts the client back, disconnecting it
only on `QueueFull`; `acquire` pops an idle client if available and connected,
else constructs and connects a fresh one (a popped disconnected client is
dropped; `connect`'s boolean result is ignored). -/

/-- One pooled client: an identity and its `is_connected` state. -/
structure PooledClient where
  cid : Nat
  connected : Bool
deriving DecidableEq, Repr

/-- `asyncio.Queue.full()` for a queue with the given `maxsize` and
contents: never full when `maxsize <= 0`. -/
def queueFull (size : Nat) (pool : List PooledClient) : Bool :=
  0 < size && size ≤ pool.length

/-- `ConnectionPool.release(client)`: `put_nowait`, disconnecting the client
instead when the queue is full.  Returns the new idle pool and the client's
resulting state. -/
def ConnectionPool.release (size : Nat) (pool : List PooledClient)
    (client : PooledClient) : List PooledClient × PooledClient :=
  if queueFull size pool then (pool, { client with connected := false })
  else (pool ++ [client], client)

/-- `ConnectionPool.acquire()`: `get_nowait` and return the popped client if
it `is_connected`; on an empty queue or a stale client, create and connect a
fresh client (`fresh` names it, `ok` is its ignored `connect()` result).
Returns the new idle pool and the acquired client. -/
def ConnectionPool.acquire (pool : List PooledClient) (fresh : Nat) (ok : Bool) :
    List PooledClient × PooledClient :=
  match pool with
  | [] => ([], ⟨fresh, ok⟩)
  | c :: rest => if c.connected then (rest, c) else (rest, ⟨fresh, ok⟩)

/-- One pool operation issued by a caller. -/
inductive PoolOp where
  | acquire : Nat → Bool → PoolOp
  | release : PooledClient → PoolOp

/-- Run a sequence of pool operations, tracking only the idle pool. -/
def applyPoolOps (size : Nat) : List PoolOp → List PooledClient → List PooledClient
  | [], pool => pool
  | .acquire fresh ok :: ops, pool =>
      applyPoolOps size ops (ConnectionPool.acquire pool fresh ok).1
  | .release c :: ops, pool =>
      applyPoolOps size ops (ConnectionPool.release size pool c).1

theorem release_length_le (size : Nat) (hsize : 1 ≤ size)
    (pool : List PooledClient) (c : PooledClient) (hlen : pool.length ≤ size) :
    (ConnectionPool.release size pool c).1.length ≤ size := by
  unfold ConnectionPool.release
  by_cases hf : queueFull size pool = true
  · simp [hf, hlen]
  · have : ¬ size ≤ pool.length := by
      intro hle
      exact hf (by simp only [queueFull, Bool.and_eq_true, decide_eq_true_eq]; omega)
    simp [hf]
    omega

theorem acquire_length_le (size : Nat) (pool : List PooledClient)
    (fresh : Nat) (ok : Bool) (hlen : pool.length ≤ size) :
    (ConnectionPool.acquire pool fresh ok).1.length ≤ size := by
  match pool with
  | [] => simp [ConnectionPool.acquire]
  | c :: rest =>
      unfold ConnectionPool.acquire
      by_cases hc : c.connected = true <;> simp [hc] <;>
        simp only [List.length_cons] at hlen <;> omega

/-- For `size ≥ 1`, no operation sequence grows the idle pool beyond
`size`. -/
theorem pool_capacity_invariant (size : Nat) (hsize : 1 ≤ size) :
    ∀ (ops : List PoolOp) (pool : List PooledClient), pool.length ≤ size →
      (applyPoolOps size ops pool).length ≤ size
  | [], pool => by intro h; simpa [applyPoolOps] using h
  | .acquire fresh ok :: ops, pool => by
      intro h
      exact pool_capacity_invariant size hsize ops _ (acquire_length_le size pool fresh ok h)
  | .release c :: ops, pool => by
      intro h
      exact pool_capacity_invariant size hsize ops _ (release_length_le size hsize pool c h)

/-- Releasing into a full pool leaves it unchanged and disconnects the
surplus client. -/
theorem release_when_full_disconnects (size : Nat) (pool : List PooledClient)
    (c : PooledClient) (hsize : 1 ≤ size) (hfull : size ≤ pool.length) :
    ConnectionPool.release size pool c = (pool, { c with connected := false }) := by
  unfold ConnectionPool.release
  simp only [queueFull]
  rw [if_pos]
  simp only [Bool.and_eq_true, decide_eq_true_eq]
  omega

/-- C9 counterexample: with capacity `size = 0` the underlying
`asyncio.Queue(maxsize=0)` is unbounded, so a single release grows the idle
pool to 1 > 0 and the released connection stays connected (its socket is not
closed), refuting the claim for that configured capacity. -/
theorem pool_capacity_zero_counterexample :
    ConnectionPool.release 0 [] ⟨0, true⟩ = ([⟨0, true⟩], ⟨0, true⟩) ∧
    ([(⟨0, true⟩ : PooledClient)].length > 0 ∧ (⟨0, true⟩ : PooledClient).connected = true) := by
  refine ⟨rfl, by decide, rfl⟩

/-- C9 amended: for a pool configured with capacity `size ≥ 1`, no sequence
of `acquire`/`release` operations ever grows the idle pool beyond `size`
(every intermediate pool is the result of a prefix of the sequence), and a
connection released when the pool is already full is disconnected — the pool
is unchanged and the surplus client's socket is closed, not retained or
leaked.  (For `size = 0` the underlying `asyncio.Queue` is unbounded and the
invariant fails; see the counterexample.) -/
theorem pool_capacity_and_overflow_disconnect (size : Nat) (hsize : 1 ≤ size) :
    (∀ (ops : List PoolOp) (pool : List PooledClient), pool.length ≤ size →
      (applyPoolOps size ops pool).length ≤ size) ∧
    (∀ (pool : List PooledClient) (c : PooledClient), size ≤ pool.length →
      ConnectionPool.release size pool c = (pool, { c with connected := false })) :=
  ⟨fun ops pool h => pool_capacity_invariant size hsize ops pool h,
   fun pool c h => release_when_full_disconnects size pool c hsize h⟩

/-- Witness for the amended C9 at concrete inputs: releasing into an empty
pool of capacity 5 keeps the bound, and releasing into a full pool of
capacity 1 disconnects the surplus client. -/
theorem pool_capacity_witness :
    (applyPoolOps 5 [.release ⟨1, true⟩] []).length ≤ 5 ∧
    ConnectionPool.release 1 [⟨2, true⟩] ⟨3, true⟩ = ([⟨2, true⟩], ⟨3, false⟩) :=
  ⟨(pool_capacity_and_overflow_disconnect 5 (by decide)).1 [.release ⟨1, true⟩] [] (by decide),
   (pool_capacity_and_overflow_disconnect 1 (by decide)).2 [⟨2, true⟩] ⟨3, true⟩ (by decide)⟩

/-! ## Socket servers (`src/blender/addon/server.py`, `src/freecad/server/server.py`)

`_handle_client` accumulates received bytes, splits the buffer on `"\n"`, and
feeds each complete non-blank line to `_process_message`, writing its return
string back.  An inbound line either fails `json.loads` (with some error
text) or decodes to a JSON value; `_process_message` then builds `Request`
via `Request.from_json` and runs `self.dispatcher.dispatch`, whose behavior
(including its execution-context bridging) is abstracted as a function from
the parsed request to a value or a raised exception.  Handler results are
JSON values here, so serializing the success envelope cannot itself fail. -/

/-- One complete, non-blank inbound line, as `json.loads` sees it. -/
inductive Line where
  | malformed : String → Line
  | wellFormed : JVal → Line

/-- The dispatcher's `dispatch` as visible to a server: absent
(`self.dispatcher is None`) or a function producing a value or a raised
exception. -/
def DispatchFn : Type := Request → Except PyExc JVal

/-- The `try: result = dispatch(...)` block shared verbatim by both servers:
wrap a returned value in a success `Response`; wrap a raised `TDMAPIError` in
an `ErrorResponse` with its code, message (`str(e)` equals the message) and
details; wrap any other exception in an `EXECUTION_ERROR`; all with the
request's id. -/
def dispatchReply (res : Except PyExc JVal) (id : JVal) : JVal :=
  match res with
  | .ok v => (Response.make v id).to_json
  | .error (.typed e) => (ErrorResponse.make e.code e.message e.details id).to_json
  | .error (.untyped m) => (ErrorResponse.make "EXECUTION_ERROR" m [] id).to_json

/-- `BlenderSocketServer._process_message`: `json.JSONDecodeError` →
`PARSE_ERROR` without id; any other exception escaping `Request.from_json`
(e.g. `AttributeError` on a non-object line) → `INTERNAL_ERROR` without id;
no dispatcher → `SERVER_NOT_READY` with the request's id; a `TDMAPIError`
from dispatch → its code/message/details with the request's id; any other
exception → `EXECUTION_ERROR` with the request's id. -/
def blenderProcessMessage (disp : Option DispatchFn) (line : Line) : JVal :=
  match line with
  | .malformed emsg =>
      (ErrorResponse.make "PARSE_ERROR" ("Invalid JSON: " ++ emsg) [] .null).to_json
  | .wellFormed j =>
      match Request.from_json j with
      | .error emsg => (ErrorResponse.make "INTERNAL_ERROR" emsg [] .null).to_json
      | .ok req =>
          match disp with
          | none =>
              (ErrorResponse.make "SERVER_NOT_READY" "Command dispatcher not initialized"
                [] req.id).to_json
          | some d => dispatchReply (d req) req.id

/-- `FreeCADSocketServer._process_message`: any exception from
`Request.from_json` (malformed JSON or a non-object line) → `PARSE_ERROR`
without id; no dispatcher → `SERVER_ERROR` with the request's id; a
`TDMAPIError` → its code, `str(e)` (= its message) and details with the
request's id; any other exception → `EXECUTION_ERROR` with the request's
id. -/
def freecadProcessMessage (disp : Option DispatchFn) (line : Line) : JVal :=
  match line with
  | .malformed emsg =>
      (ErrorResponse.make "PARSE_ERROR" ("Invalid JSON: " ++ emsg) [] .null).to_json
  | .wellFormed j =>
      match Request.from_json j with
      | .error emsg => (ErrorResponse.make "PARSE_ERROR" ("Invalid JSON: " ++ emsg) [] .null).to_json
      | .ok req =>
          match disp with
          | none =>
              (ErrorResponse.make "SERVER_ERROR" "No dispatcher configured" [] req.id).to_json
          | some d => dispatchReply (d req) req.id

/-- The read loop of `_handle_client` over the complete non-blank lines of a
connection: one reply per line, in order; no reply (parse error included)
terminates the loop. -/
def serverReplies (process : Line → JVal) : List Line → List JVal
  | [] => []
  | l :: rest => process l :: serverReplies process rest

/-- The `"status"` field of a serialized envelope. -/
def envStatus (env : JVal) : Option JVal :=
  match env with
  | .obj fields => assocGet fields "status"
  | _ => none

/-- The `"id"` field of a serialized envelope (`none` = key absent). -/
def envId (env : JVal) : Option JVal :=
  match env with
  | .obj fields => assocGet fields "id"
  | _ => none

theorem envId_errorResponse (c m : String) (d : List (String × JVal)) (i : JVal) :
    envId ((ErrorResponse.make c m d i).to_json) =
      if i = .null then none else some i := by
  by_cases h : i = JVal.null <;>
    simp [ErrorResponse.make, ErrorResponse.to_json, envId, assocGet, h]

theorem envStatus_errorResponse (c m : String) (d : List (String × JVal)) (i : JVal) :
    envStatus ((ErrorResponse.make c m d i).to_json) = some (.str "error") := by
  by_cases h : i = JVal.null <;>
    simp [ErrorResponse.make, ErrorResponse.to_json, envStatus, assocGet, h]

theorem envStatus_response (v i : JVal) :
    envStatus ((Response.make v i).to_json) = some (.str "success") := by
  by_cases h : i = JVal.null <;>
    simp [Response.make, Response.to_json, envStatus, assocGet, h]


theorem envId_dispatchReply (res : Except PyExc JVal) (id : JVal)
    (hst : envStatus (dispatchReply res id) = some (.str "error")) :
    envId (dispatchReply res id) = if id = .null then none else some id := by
  match res with
  | .ok v =>
      rw [dispatchReply] at hst
      rw [envStatus_response] at hst
      simp at hst
  | .error (.typed e) => exact envId_errorResponse _ _ _ _
  | .error (.untyped m) => exact envId_errorResponse _ _ _ _

/-- C8: for every inbound line answered with an error envelope — whatever the
dispatcher does — if the line parsed into a `Request`, the error response
carries the id echoed from that request (`id = None`/absent echoes as no id
key); a line that fails to parse as JSON at all is answered `PARSE_ERROR`
with no id (on both servers); and a parse failure does not terminate the read
loop, which processes the subsequent lines. -/
theorem error_envelope_id_echo_and_parse_error :
    (∀ (disp : Option DispatchFn) (emsg : String),
      blenderProcessMessage disp (.malformed emsg) =
        (ErrorResponse.make "PARSE_ERROR" ("Invalid JSON: " ++ emsg) [] .null).to_json ∧
      freecadProcessMessage disp (.malformed emsg) =
        (ErrorResponse.make "PARSE_ERROR" ("Invalid JSON: " ++ emsg) [] .null).to_json ∧
      envId ((ErrorResponse.make "PARSE_ERROR" ("Invalid JSON: " ++ emsg) [] .null).to_json) =
        none) ∧
    (∀ (disp : Option DispatchFn) (j : JVal) (req : Request),
      Request.from_json j = .ok req →
      (envStatus (blenderProcessMessage disp (.wellFormed j)) = some (.str "error") →
        envId (blenderProcessMessage disp (.wellFormed j)) =
          if req.id = .null then none else some req.id) ∧
      (envStatus (freecadProcessMessage disp (.wellFormed j)) = some (.str "error") →
        envId (freecadProcessMessage disp (.wellFormed j)) =
          if req.id = .null then none else some req.id)) ∧
    (∀ (disp : Option DispatchFn) (emsg : String) (rest : List Line),
      serverReplies (blenderProcessMessage disp) (.malformed emsg :: rest) =
        blenderProcessMessage disp (.malformed emsg) ::
          serverReplies (blenderProcessMessage disp) rest ∧
      serverReplies (freecadProcessMessage disp) (.malformed emsg :: rest) =
        freecadProcessMessage disp (.malformed emsg) ::
          serverReplies (freecadProcessMessage disp) rest) := by
  refine ⟨fun disp emsg => ⟨rfl, rfl, envId_errorResponse _ _ _ _⟩,
    fun disp j req hreq => ?_, fun disp emsg rest => ⟨rfl, rfl⟩⟩
  obtain ⟨fields, rfl⟩ : ∃ fields, j = JVal.obj fields := by
    cases j <;> first
      | exact ⟨_, rfl⟩
      | simp [Request.from_json] at hreq
  cases disp with
  | none =>
      refine ⟨fun _ => ?_, fun _ => ?_⟩
      · simp only [blenderProcessMessage, hreq]
        exact envId_errorResponse _ _ _ _
      · simp only [freecadProcessMessage, hreq]
        exact envId_errorResponse _ _ _ _
  | some d =>
      constructor
      · intro hst
        simp only [blenderProcessMessage, hreq] at hst ⊢
        exact envId_dispatchReply (d req) req.id hst
      · intro hst
        simp only [freecadProcessMessage, hreq] at hst ⊢
        exact envId_dispatchReply (d req) req.id hst

/-- Witness for C8 at concrete inputs: a malformed line is answered
`PARSE_ERROR` with no id on both servers, and an error reply to a parsed
request with id `"2"` echoes that id. -/
theorem error_envelope_id_echo_witness :
    (blenderProcessMessage (some fun _ => .error (.typed (MethodNotFoundError "x")))
        (.malformed "Expecting value: line 1 column 1 (char 0)") =
      (ErrorResponse.make "PARSE_ERROR"
        "Invalid JSON: Expecting value: line 1 column 1 (char 0)" [] .null).to_json) ∧
    (envStatus (blenderProcessMessage
        (some fun _ => .error (.typed (MethodNotFoundError "x")))
        (.wellFormed (.obj [("method", .str "missing_method"), ("params", .obj []),
          ("id", .str "2")]))) = some (.str "error") →
      envId (blenderProcessMessage (some fun _ => .error (.typed (MethodNotFoundError "x")))
        (.wellFormed (.obj [("method", .str "missing_method"), ("params", .obj []),
          ("id", .str "2")]))) =
        if (JVal.str "2") = .null then none else some (.str "2")) :=
  ⟨(error_envelope_id_echo_and_parse_error.1
      (some fun _ => .error (.typed (MethodNotFoundError "x")))
      "Expecting value: line 1 column 1 (char 0)").1,
   (error_envelope_id_echo_and_parse_error.2.1
      (some fun _ => .error (.typed (MethodNotFoundError "x")))
      (.obj [("method", .str "missing_method"), ("params", .obj []), ("id", .str "2")])
      ⟨.str "missing_method", .obj [], .str "2"⟩ rfl).1⟩

/-- C10: a syntactically valid request arriving before any dispatcher is set
(`self.dispatcher is None`) is not dispatched: the Blender server replies
`SERVER_NOT_READY` and the FreeCAD server `SERVER_ERROR`, each an error
envelope carrying the request's id, and the read loop continues with the
subsequent lines of the connection. -/
theorem no_dispatcher_error_reply (j : JVal) (req : Request)
    (hreq : Request.from_json j = .ok req) :
    blenderProcessMessage none (.wellFormed j) =
      (ErrorResponse.make "SERVER_NOT_READY" "Command dispatcher not initialized"
        [] req.id).to_json ∧
    freecadProcessMessage none (.wellFormed j) =
      (ErrorResponse.make "SERVER_ERROR" "No dispatcher configured" [] req.id).to_json ∧
    envId (blenderProcessMessage none (.wellFormed j)) =
      (if req.id = .null then none else some req.id) ∧
    envId (freecadProcessMessage none (.wellFormed j)) =
      (if req.id = .null then none else some req.id) ∧
    envStatus (blenderProcessMessage none (.wellFormed j)) = some (.str "error") ∧
    envStatus (freecadProcessMessage none (.wellFormed j)) = some (.str "error") ∧
    (∀ rest : List Line,
      serverReplies (blenderProcessMessage none) (.wellFormed j :: rest) =
        blenderProcessMessage none (.wellFormed j) ::
          serverReplies (blenderProcessMessage none) rest) := by
  obtain ⟨fields, rfl⟩ : ∃ fields, j = JVal.obj fields := by
    cases j <;> first
      | exact ⟨_, rfl⟩
      | simp [Request.from_json] at hreq
  refine ⟨by simp [blenderProcessMessage, hreq], by simp [freecadProcessMessage, hreq],
    ?_, ?_, ?_, ?_, fun rest => rfl⟩
  · simp only [blenderProcessMessage, hreq]
    exact envId_errorResponse _ _ _ _
  · simp only [freecadProcessMessage, hreq]
    exact envId_errorResponse _ _ _ _
  · simp only [blenderProcessMessage, hreq]
    exact envStatus_errorResponse _ _ _ _
  · simp only [freecadProcessMessage, hreq]
    exact envStatus_errorResponse _ _ _ _

/-- Witness for C10 at a concrete request with id `"9"`. -/
theorem no_dispatcher_error_reply_witness :
    blenderProcessMessage none
        (.wellFormed (.obj [("method", .str "ping"), ("params", .obj []), ("id", .str "9")])) =
      (ErrorResponse.make "SERVER_NOT_READY" "Command dispatcher not initialized"
        [] (.str "9")).to_json ∧
    freecadProcessMessage none
        (.wellFormed (.obj [("method", .str "ping"), ("params", .obj []), ("id", .str "9")])) =
      (ErrorResponse.make "SERVER_ERROR" "No dispatcher configured" [] (.str "9")).to_json :=
  ⟨(no_dispatcher_error_reply
      (.obj [("method", .str "ping"), ("params", .obj []), ("id", .str "9")])
      ⟨.str "ping", .obj [], .str "9"⟩ rfl).1,
   (no_dispatcher_error_reply
      (.obj [("method", .str "ping"), ("params", .obj []), ("id", .str "9")])
      ⟨.str "ping", .obj [], .str "9"⟩ rfl).2.1⟩

/-! ## Wire lines and the per-response bytes (`to_json` + `_handle_client`)

`to_json` returns `json.dumps(data) + "\n"`.  To count the newline characters
a server actually writes we model `json.dumps` (default separators, no
indent) concretely.  `json.dumps` never emits a raw newline: newlines inside
strings are escaped as the two characters `\n` (it additionally
`\u`-escapes other control and non-ASCII characters, which also never yields
a raw newline and which none of the strings here contains). -/

/-- JSON string escaping of one character, as `json.dumps` renders the
characters occurring here. -/
def escapeChar (c : Char) : String :=
  if c = '"' then "\\\""
  else if c = '\\' then "\\\\"
  else if c = '\n' then "\\n"
  else if c = '\r' then "\\r"
  else if c = '\t' then "\\t"
  else String.singleton c

/-- JSON string escaping. -/
def escapeStr (s : String) : String :=
  String.join (s.toList.map escapeChar)

mutual

/-- `json.dumps` with its default separators (`", "` and `": "`). -/
def JVal.dumps : JVal → String
  | .null => "null"
  | .bool true => "true"
  | .bool false => "false"
  | .num n => toString n
  | .str s => "\"" ++ escapeStr s ++ "\""
  | .arr xs => "[" ++ JVal.dumpsList xs ++ "]"
  | .obj fs => "\x7b" ++ JVal.dumpsFields fs ++ "\x7d"

def JVal.dumpsList : List JVal → String
  | [] => ""
  | [x] => x.dumps
  | x :: xs => x.dumps ++ ", " ++ JVal.dumpsList xs

def JVal.dumpsFields : List (String × JVal) → String
  | [] => ""
  | [(k, v)] => "\"" ++ escapeStr k ++ "\": " ++ v.dumps
  | (k, v) :: fs => "\"" ++ escapeStr k ++ "\": " ++ v.dumps ++ ", " ++ JVal.dumpsFields fs

end

/-- The full wire string each `to_json` returns: `json.dumps(data) + "\n"`. -/
def toJsonLine (env : JVal) : String := env.dumps ++ "\n"

/-- The bytes `FreeCADSocketServer._handle_client` writes for one complete
inbound line: `client_socket.sendall((response + '\n').encode('utf-8'))`
where `response = self._process_message(message)` already ends in the `"\n"`
appended by `to_json`. -/
def freecadLineWrite (disp : Option DispatchFn) (line : Line) : String :=
  toJsonLine (freecadProcessMessage disp line) ++ "\n"

/-- The bytes `BlenderSocketServer._handle_client` writes for one complete
inbound line: `client_socket.send(response.encode('utf-8'))`. -/
def blenderLineWrite (disp : Option DispatchFn) (line : Line) : String :=
  toJsonLine (blenderProcessMessage disp line)

/-- Number of newline characters in a written byte string. -/
def countNL (s : String) : Nat := s.toList.count '\n'

/-- C5 (failing behavior): for a complete `ping` request line, the FreeCAD
server writes the serialized envelope followed by TWO newline characters —
`to_json` already appends one and `_handle_client` appends another — not
exactly one.  (The Blender server, whose `_handle_client` does not append,
writes exactly one.) -/
theorem freecad_response_two_newlines :
    countNL (freecadLineWrite (some fun _ => .ok (.obj [("status", .str "pong")]))
      (.wellFormed (.obj [("method", .str "ping"), ("params", .obj []),
        ("id", .str "1")]))) = 2 ∧
    countNL (blenderLineWrite (some fun _ => .ok (.obj [("status", .str "pong")]))
      (.wellFormed (.obj [("method", .str "ping"), ("params", .obj []),
        ("id", .str "1")]))) = 1 := by
  constructor <;> rfl
